import Mathlib

/- Verification development for the TierIV capstone backend road-network
analysis code.  The Python sources are shallowly embedded: dictionaries
holding a fixed set of keys become structures with optional fields, loosely
typed tag values become the inductive type `Value`, machine floats are
idealized as rationals (for parsing and tag arithmetic) or reals (for
trigonometric geometry), and Python exceptions become `Except` results. -/

deriving instance DecidableEq for Except

namespace TierIV

/-- Junction categories, from junction_models.py (class JunctionType). -/
inductive JunctionType where
  | ROUNDABOUT | CIRCULAR | JUGHANDLE
  | MINI_ROUNDABOUT | TURNING_CIRCLE | TURNING_LOOP
  | MOTORWAY_JUNCTION | ISLAND | PASSING_PLACE
  | T_JUNCTION | Y_JUNCTION | CROSSROAD
deriving DecidableEq

/-- Movement categories, from junction_models.py (class Direction). -/
inductive Direction where
  | THRU | TURN | CROSS | REVERSE
deriving DecidableEq

/-- Relative leg position, from junction_models.py (class NbrPosition). -/
inductive NbrPosition where
  | OPP | NEAR | FAR
deriving DecidableEq

/-- Conflict categories, from junction_models.py (class JuncConflict). -/
inductive JuncConflict where
  | INTERSECT | MERGE | NO_CONFLICT
deriving DecidableEq

/-- Raw lane-turn tag vocabulary, from junction_models.py (class LaneTurn). -/
inductive LaneTurn where
  | THROUGH | LEFT | SLIGHT_LEFT | SHARP_LEFT
  | RIGHT | SLIGHT_RIGHT | SHARP_RIGHT | REVERSE
  | MERGE_TO_LEFT | MERGE_TO_RIGHT
deriving DecidableEq

/-- Loosely typed Python tag values as they appear in ODD dictionaries and
edge metadata: strings, numbers (floats and ints idealized as rationals),
booleans and lists. -/
inductive Value where
  | VStr (s : String)
  | VNum (q : ℚ)
  | VBool (b : Bool)
  | VList (l : List Value)

open Value

mutual
/-- Python equality (the == operator) between tag values: numbers and
booleans compare numerically (True == 1 in Python), strings compare as
strings, lists compare elementwise, and any other cross-type comparison is
false. -/
def pyEq : Value → Value → Bool
  | VStr a, VStr b => a = b
  | VNum a, VNum b => a = b
  | VBool a, VBool b => a = b
  | VBool a, VNum b => (if a then (1 : ℚ) else 0) = b
  | VNum a, VBool b => a = (if b then (1 : ℚ) else 0)
  | VList a, VList b => pyEqList a b
  | _, _ => false

/-- Elementwise Python equality of two lists of tag values. -/
def pyEqList : List Value → List Value → Bool
  | [], [] => true
  | x :: xs, y :: ys => pyEq x y && pyEqList xs ys
  | _, _ => false
end

/-- Python truthiness of a tag value: empty strings, zero, False and empty
lists are falsy. -/
def truthy : Value → Bool
  | VStr s => s ≠ ""
  | VNum q => q ≠ 0
  | VBool b => b
  | VList l => !l.isEmpty

/-- Python truthiness of an optional tag value; a missing value (None) is
falsy. -/
def truthyOpt : Option Value → Bool
  | none => false
  | some v => truthy v

/-- Python membership (the in operator) of a tag value in a list, testing
with Python equality. -/
def pyIn (v : Value) (l : List Value) : Bool :=
  l.any (fun x => pyEq x v)

/-- Python len() of a tag value: character count for a string, element count
for a list.  The source raises TypeError on other values; those lie outside
the modeled domain and are given length 0 here. -/
def pyLen : Value → ℕ
  | VStr s => s.length
  | VList l => l.length
  | _ => 0

/-- Character test for the regex class backslash-s (Python whitespace:
space, tab, newline, carriage return, form feed, vertical tab). -/
def isPySpace (c : Char) : Bool :=
  c.toNat = 32 ∨ c.toNat = 9 ∨ c.toNat = 10 ∨ c.toNat = 13 ∨ c.toNat = 12 ∨ c.toNat = 11

/-- Python str.strip(): remove leading and trailing whitespace. -/
def pyStrip (s : String) : String :=
  String.mk (((s.data.dropWhile isPySpace).reverse.dropWhile isPySpace).reverse)

/-- Python str.lower() restricted to ASCII, which is all the source feeds
it. -/
def pyLower (s : String) : String :=
  String.mk (s.data.map Char.toLower)

/-- Python str.upper() restricted to ASCII. -/
def pyUpper (s : String) : String :=
  String.mk (s.data.map Char.toUpper)

/-- Numeric value of a list of decimal digit characters. -/
def digitsToNat (l : List Char) : ℕ :=
  l.foldl (fun n c => 10 * n + (c.toNat - 48)) 0

/-- Model of the Python float() constructor on strings, covering the forms
the source can meet: optional surrounding whitespace, an optional sign, a
mantissa made of digits with at most one decimal point (and at least one
digit), and an optional decimal exponent.  Returns none where float()
raises ValueError.  (inf, nan and underscore separators are not modeled.)
The value is assembled as one exact fraction, integer mantissa over a power
of ten, which is the mathematical value the source float holds up to
rounding. -/
def pyFloat (s : String) : Option ℚ :=
  let cs := (pyStrip s).data
  let signAndRest : Bool × List Char :=
    match cs with
    | c :: rest =>
      if c.toNat = 43 then (false, rest)
      else if c.toNat = 45 then (true, rest)
      else (false, cs)
    | [] => (false, [])
  let neg := signAndRest.1
  let cs1 := signAndRest.2
  let ip := cs1.takeWhile Char.isDigit
  let cs2 := cs1.dropWhile Char.isDigit
  let fpAndRest : List Char × List Char :=
    match cs2 with
    | c :: rest =>
      if c.toNat = 46 then (rest.takeWhile Char.isDigit, rest.dropWhile Char.isDigit)
      else ([], cs2)
    | [] => ([], [])
  let fp := fpAndRest.1
  let cs3 := fpAndRest.2
  if ip = [] ∧ fp = [] then none
  else
    let m : ℕ := digitsToNat (ip ++ fp)
    let den : ℕ := 10 ^ fp.length
    let signed : ℤ → ℤ := fun n => if neg then -n else n
    match cs3 with
    | [] => some (mkRat (signed m) den)
    | c :: rest =>
      if c.toNat = 101 ∨ c.toNat = 69 then
        let esignAndRest : Bool × List Char :=
          match rest with
          | d :: r2 =>
            if d.toNat = 43 then (false, r2)
            else if d.toNat = 45 then (true, r2)
            else (false, rest)
          | [] => (false, [])
        let ed := esignAndRest.2.takeWhile Char.isDigit
        let tail := esignAndRest.2.dropWhile Char.isDigit
        if ed = [] ∨ tail ≠ [] then none
        else
          let e : ℕ := digitsToNat ed
          if esignAndRest.1 then some (mkRat (signed m) (den * 10 ^ e))
          else some (mkRat (signed (m * 10 ^ e)) den)
      else none

/-- Truncation of a rational toward zero, the behavior of the Python int()
constructor on floats. -/
def pyIntOfRat (q : ℚ) : ℤ :=
  if 0 ≤ q then ⌊q⌋ else ⌈q⌉

/-- Model of the Python int() constructor on strings: optional whitespace,
optional sign, then decimal digits only.  Returns none where int() raises
ValueError. -/
def pyIntOfString (s : String) : Option ℤ :=
  let cs := (pyStrip s).data
  let signAndRest : Bool × List Char :=
    match cs with
    | c :: rest =>
      if c.toNat = 43 then (false, rest)
      else if c.toNat = 45 then (true, rest)
      else (false, cs)
    | [] => (false, [])
  let ds := signAndRest.2
  if ds = [] ∨ ¬ (ds.all Char.isDigit) then none
  else
    let n : ℤ := (digitsToNat ds : ℤ)
    some (if signAndRest.1 then -n else n)

/-- Model of the Python int() constructor on tag values; none stands for a
raised ValueError or TypeError (both are caught at every use site in the
source). -/
def pyInt : Value → Option ℤ
  | VNum q => some (pyIntOfRat q)
  | VBool b => some (if b then 1 else 0)
  | VStr s => pyIntOfString s
  | VList _ => none

/-- Model of the local helper to_float of check_single_edge_odd_compliance
(network_task.py lines 231 to 235) on tag values: float() wrapped so that
TypeError and ValueError yield none.  float(None) raises TypeError, hence
the none case. -/
def to_float : Option Value → Option ℚ
  | none => none
  | some (VNum q) => some q
  | some (VBool b) => some (if b then (1 : ℚ) else 0)
  | some (VStr s) => pyFloat s
  | some (VList _) => none

/-- The ODD specification dictionary as consumed by
check_single_edge_odd_compliance (network_task.py): a fixed set of
string-keyed entries, each possibly absent. -/
structure OddSpec where
  highway_type : Option Value := none
  lane_markings : Option Value := none
  oneway : Option Value := none
  is_major_road : Option Value := none
  speed_limit : Option Value := none
  lane_width : Option Value := none

/-- The edge metadata dictionary as consumed by
check_single_edge_odd_compliance (network_task.py): the keys it reads,
each possibly absent. -/
structure EdgeMeta where
  highway_type : Option Value := none
  lane_markings_forward : Option Value := none
  oneway : Option Value := none
  is_major_road : Option Value := none
  speed_limit : Option Value := none
  lane_width : Option Value := none

/-- One compliance rule of the loop at network_task.py lines 203 to 209:
given the metadata value (possibly absent) and the ODD value, decide
whether the rule rejects the edge (the return False branches). -/
def ruleFails (value : Option Value) (odd_value : Value) : Bool :=
  match odd_value with
  | VList l =>
    if !l.isEmpty then
      (!pyIn (VStr "ALL") l) &&
        (match value with
         | none => true
         | some v => !pyIn v l)
    else
      (!pyEq (VList l) (VStr "ALL")) &&
        (match value with
         | none => true
         | some v => !pyEq v (VList l))
  | ov =>
    (!pyEq ov (VStr "ALL")) &&
      (match value with
       | none => true
       | some v => !pyEq v ov)

/-- The single-element-list unwrapping applied to the oneway and
is_major_road ODD policies (network_task.py lines 213 to 214 and 220 to
221): a nonempty list is replaced by its first element. -/
def normFlag : Value → Value
  | VList (x :: _) => x
  | v => v

/-- The boolean-flag rejection test of network_task.py lines 212 to 224 for
one flag: the ODD policy (defaulting to True when absent, then unwrapped
with normFlag) and the corresponding metadata flag are both falsy. -/
def flagFails (oddFlag : Option Value) (mdFlag : Option Value) : Bool :=
  let f := normFlag (oddFlag.getD (VBool true))
  (!truthy f) && (!truthyOpt mdFlag)

/-- The helper get_min_numeric of check_single_edge_odd_compliance
(network_task.py lines 228 to 245), applied to the already-resolved
source.get(key, fallback) value: lists are mapped through to_float,
non-numeric entries dropped, and the minimum returned (none for an empty
numeric list); other values go through to_float directly. -/
def get_min_numeric (val : Option Value) : Option ℚ :=
  match val with
  | some (VList l) =>
    match l.filterMap (fun v => to_float (some v)) with
    | [] => none
    | h :: t => some (t.foldl min h)
  | v => to_float v

/-- The speed-limit ceiling check of network_task.py lines 258 to 260:
reject when both values are known and the edge minimum exceeds the ODD
value. -/
def speedRejects (minv oddv : Option ℚ) : Bool :=
  match minv, oddv with
  | some x, some y => decide (y < x)
  | _, _ => false

/-- The lane-width floor check of network_task.py lines 262 to 264: reject
when both values are known and the edge minimum is below the ODD value. -/
def widthRejects (minv oddv : Option ℚ) : Bool :=
  match minv, oddv with
  | some x, some y => decide (x < y)
  | _, _ => false

/-- Embedding of check_single_edge_odd_compliance (network_task.py lines
193 to 266).  The two dictionary-driven rules of the source loop are
unrolled; the speed-limit fallback is 999 and the lane-width fallback is 0,
as in the source (lines 250 and 253). -/
def check_single_edge_odd_compliance (odd : OddSpec) (metadata : EdgeMeta) : Bool :=
  if ruleFails metadata.highway_type (odd.highway_type.getD (VStr "ALL")) then false
  else if ruleFails metadata.lane_markings_forward (odd.lane_markings.getD (VStr "ALL")) then false
  else if flagFails odd.oneway metadata.oneway then false
  else if flagFails odd.is_major_road metadata.is_major_road then false
  else if speedRejects (get_min_numeric (some (metadata.speed_limit.getD (VNum 999))))
      (get_min_numeric odd.speed_limit) then false
  else if widthRejects (get_min_numeric (some (metadata.lane_width.getD (VNum 0))))
      (get_min_numeric odd.lane_width) then false
  else true

/-- The edge data attributes read by _parse_lane_data
(junction_analysis.py lines 163 to 241): the reversed flag and the
direction-keyed turn-lane and lane-count tags, each possibly absent. -/
structure EdgeData where
  reversed : Option Value := none
  turn_lanes_forward : Option Value := none
  turn_lanes_backward : Option Value := none
  lanes_forward : Option Value := none
  lanes_backward : Option Value := none

/-- Direction resolution of _parse_lane_data line 178: the backward side is
chosen when the reversed attribute is truthy.  Returns true for backward. -/
def sideOf (data : EdgeData) : Bool :=
  truthyOpt data.reversed

/-- The raw turn-lane tag for the resolved direction, defaulting to the
empty string (line 182). -/
def tagRawOf (data : EdgeData) : Value :=
  (if sideOf data then data.turn_lanes_backward else data.turn_lanes_forward).getD (VStr "")

/-- The lane-count tag for the resolved direction (line 214). -/
def lanesValOf (data : EdgeData) : Option Value :=
  if sideOf data then data.lanes_backward else data.lanes_forward

/-- Python str() of a tag value, as used by map(str, lanes) at line 198.
In the source the lane entries are strings; numbers are rendered in a
simple decimal form and never arise in the modeled inputs. -/
def pyStr : Value → String
  | VStr s => s
  | VBool b => if b then "True" else "False"
  | VNum q => if q.den = 1 then toString q.num else toString q.num ++ "/" ++ toString q.den
  | VList _ => ""

/-- Lane-segment splitting of _parse_lane_data lines 191 to 196: a falsy
tag yields no segments, a list tag is used as is, and a string tag is split
on the bar separator.  A truthy non-string non-list tag makes the source
raise AttributeError (str.split on a non-string); that case is outside the
modeled domain and yields no segments here. -/
def splitTag (tag_raw : Value) : List Value :=
  if !truthy tag_raw then []
  else
    match tag_raw with
    | VList l => l
    | VStr s => (s.splitOn "|").map VStr
    | _ => []

/-- Member lookup in the LaneTurn enumeration, modeling LaneTurn[d] at line
204 (none where the source raises KeyError, which is caught and skipped). -/
def laneTurnOfString (s : String) : Option LaneTurn :=
  if s = "THROUGH" then some .THROUGH
  else if s = "LEFT" then some .LEFT
  else if s = "SLIGHT_LEFT" then some .SLIGHT_LEFT
  else if s = "SHARP_LEFT" then some .SHARP_LEFT
  else if s = "RIGHT" then some .RIGHT
  else if s = "SLIGHT_RIGHT" then some .SLIGHT_RIGHT
  else if s = "SHARP_RIGHT" then some .SHARP_RIGHT
  else if s = "REVERSE" then some .REVERSE
  else if s = "MERGE_TO_LEFT" then some .MERGE_TO_LEFT
  else if s = "MERGE_TO_RIGHT" then some .MERGE_TO_RIGHT
  else none

/-- Turn-movement collection of _parse_lane_data lines 198 to 207: each
lane segment is stringified, split on semicolons, stripped, uppercased and
looked up in the LaneTurn vocabulary; unknown codes are skipped.  The
result is a set, as in the source. -/
def parseTurns (lanes : List Value) : Finset LaneTurn :=
  lanes.foldl
    (fun acc lv =>
      ((pyStr lv).splitOn ";").foldl
        (fun acc2 dir =>
          let d := pyUpper (pyStrip dir)
          if d = "" then acc2
          else
            match laneTurnOfString d with
            | some t => insert t acc2
            | none => acc2)
        acc)
    ∅

/-- Embedding of _parse_lane_data (junction_analysis.py lines 163 to 241):
allowed turns, lane count, and whether the count is an estimate. -/
def _parse_lane_data (data : EdgeData) : Finset LaneTurn × ℤ × Bool :=
  let tag_raw := tagRawOf data
  let turns0 := parseTurns (splitTag tag_raw)
  let turns := if turns0 = ∅ then ({LaneTurn.THROUGH} : Finset LaneTurn) else turns0
  match lanesValOf data with
  | some (VList l) =>
    if truthy tag_raw then (turns, (pyLen tag_raw : ℤ), false)
    else
      match l with
      | [] => (turns, 1, true)
      | x :: _ =>
        match pyInt x with
        | some n => (turns, n, true)
        | none => (turns, 1, true)
  | some v =>
    match pyInt v with
    | some n => (turns, n, false)
    | none => (turns, 1, true)
  | none => (turns, 1, true)

/-- Match of the feet-and-inches regex of _convert_to_meters line 488
(digits, optional whitespace, an apostrophe, optional whitespace, digits,
anchored at the start only) against a character list; yields the two
captured numbers. -/
def matchFtIn (cs : List Char) : Option (ℕ × ℕ) :=
  let d1 := cs.takeWhile Char.isDigit
  let r1 := cs.dropWhile Char.isDigit
  if d1 = [] then none
  else
    match r1.dropWhile isPySpace with
    | c :: r3 =>
      if c.toNat = 39 then
        let d2 := (r3.dropWhile isPySpace).takeWhile Char.isDigit
        if d2 = [] then none
        else some (digitsToNat d1, digitsToNat d2)
      else none
    | [] => none

/-- Match of the number-and-unit regex of _convert_to_meters line 495 (a
run of digits and dots, optional whitespace, a run of lowercase letters,
anchored at the start only); yields the numeric text and the unit text. -/
def matchNumUnit (cs : List Char) : Option (String × String) :=
  let isNumChar : Char → Bool := fun c => c.isDigit || c.toNat = 46
  let d1 := cs.takeWhile isNumChar
  let r1 := cs.dropWhile isNumChar
  if d1 = [] then none
  else
    let u := (r1.dropWhile isPySpace).takeWhile (fun c => 97 ≤ c.toNat ∧ c.toNat ≤ 122)
    if u = [] then none
    else some (String.mk d1, String.mk u)

/-- The trailing bare-number branch of _convert_to_meters lines 511 to 514:
float(s) with ValueError caught and turned into the fallback 0.0. -/
def bareFloat (s : String) : ℚ :=
  match pyFloat s with
  | some f => f
  | none => 0

/-- Exact multiplication of a rational by the fraction a over b, assembled
at the numerator and denominator level so that concrete runs reduce inside
the kernel; the value equals f times a divided by b. -/
def ratScale (f : ℚ) (a : ℤ) (b : ℕ) : ℚ :=
  mkRat (f.num * a) (f.den * b)

/-- Embedding of _convert_to_meters (junction_analysis.py lines 475 to
514).  The result is ok with the parsed value in meters, or error where the
source lets an exception escape: in the number-and-unit branch the call
float(num) at line 498 is not inside any try block, so a captured numeric
text that float() rejects (for example one with two decimal points) raises
ValueError out of the function.  The unit factors are the source constants:
0.3048 meters per foot, 0.0254 per inch, 1609.344 per mile, 1000 per
kilometer. -/
def _convert_to_meters (val : String) : Except String ℚ :=
  let s := pyLower (pyStrip val)
  match matchFtIn s.data with
  | some fi => .ok (mkRat (fi.1 * 3048 + fi.2 * 254) 10000)
  | none =>
    match matchNumUnit s.data with
    | some nu =>
      match pyFloat nu.1 with
      | none => .error "ValueError"
      | some f =>
        if nu.2 = "m" ∨ nu.2 = "meter" ∨ nu.2 = "meters" then .ok f
        else if nu.2 = "km" ∨ nu.2 = "kilometer" ∨ nu.2 = "kilometre" then .ok (ratScale f 1000 1)
        else if nu.2 = "mi" ∨ nu.2 = "mile" ∨ nu.2 = "miles" then .ok (ratScale f 1609344 1000)
        else if nu.2 = "ft" ∨ nu.2 = "feet" then .ok (ratScale f 3048 10000)
        else if nu.2 = "in" ∨ nu.2 = "inch" ∨ nu.2 = "inches" then .ok (ratScale f 254 10000)
        else .ok (bareFloat s)
    | none => .ok (bareFloat s)

/-- Python max() over a nonempty list, folding the binary maximum from the
head (the empty-list case raises in Python and is given a dummy value 0). -/
noncomputable def pyMax (l : List ℝ) : ℝ :=
  match l with
  | [] => 0
  | h :: t => t.foldl max h

/-- The degree-3 decision of classify_node_other (junction_analysis.py
lines 134 to 137), taking the three computed interior angles: T_JUNCTION
when the maximum angle is at most the threshold, Y_JUNCTION otherwise.
Note the direction of the comparison in the source. -/
noncomputable def classify_deg3 (angles : List ℝ) (angle_threshold : ℝ) : JunctionType :=
  if pyMax angles ≤ angle_threshold then .T_JUNCTION else .Y_JUNCTION

/-- Embedding of _calculate_angle (junction_analysis.py lines 18 to 40):
the angle in degrees between the vector from p1 to p2 and the vector from
p2 to p3, via the clipped arc cosine of the normalized dot product. -/
noncomputable def _calculate_angle (p1 p2 p3 : ℝ × ℝ) : ℝ :=
  let v1 := (p2.1 - p1.1, p2.2 - p1.2)
  let v2 := (p3.1 - p2.1, p3.2 - p2.2)
  let dp := v1.1 * v2.1 + v1.2 * v2.2
  let n1 := Real.sqrt (v1.1 ^ 2 + v1.2 ^ 2)
  let n2 := Real.sqrt (v2.1 ^ 2 + v2.2 ^ 2)
  Real.arccos (min 1 (max (-1) (dp / (n1 * n2)))) * 180 / Real.pi

/-- Embedding of classify_node_other (junction_analysis.py lines 102 to
137) over the node coordinate and the list of distinct neighbor
coordinates: degree at most 2 yields none, degree at least 4 yields
CROSSROAD, and degree 3 compares the maximum of the three consecutive-pair
interior angles with the threshold via classify_deg3. -/
noncomputable def classify_node_other (node : ℝ × ℝ) (nbrs : List (ℝ × ℝ))
    (angle_threshold : ℝ) : Option JunctionType :=
  let deg := nbrs.length
  if deg ≤ 2 then none
  else if 4 ≤ deg then some .CROSSROAD
  else
    let angles := (List.range 3).map
      (fun i => _calculate_angle (nbrs.getD i (0, 0)) node (nbrs.getD ((i + 1) % 3) (0, 0)))
    some (classify_deg3 angles angle_threshold)

/-- Embedding of get_position (junction_analysis.py lines 310 to 384) from
the two local departure direction vectors onward.  The vectors themselves
are produced by the inner helper get_dir_vector through shapely projection
and interpolation of the leg polylines (library geometry); the
classification logic of the source, lines 360 to 384, is modeled here in
full: the zero-magnitude guard, the opposite test, the near-or-far cross
product test, and the far catch-all. -/
noncomputable def get_position (v1 v2 : ℝ × ℝ) (angle_threshold : ℝ)
    (right_lane_drive : Bool) : NbrPosition :=
  let dp := v1.1 * v2.1 + v1.2 * v2.2
  let mag1 := Real.sqrt (v1.1 ^ 2 + v1.2 ^ 2)
  let mag2 := Real.sqrt (v2.1 ^ 2 + v2.2 ^ 2)
  if mag1 = 0 ∨ mag2 = 0 then .FAR
  else
    let cosang := max (-1) (min 1 (dp / (mag1 * mag2)))
    let angle := Real.arccos cosang * 180 / Real.pi
    if angle > 180 - angle_threshold then .OPP
    else if |angle - 90| < angle_threshold then
      let cross := v1.1 * v2.2 - v1.2 * v2.1
      if right_lane_drive then (if cross < 0 then .NEAR else .FAR)
      else (if cross > 0 then .NEAR else .FAR)
    else .FAR

/-- The right-turn variant group of count_pair_interaction lines 429 to
434. -/
def right_variants : List LaneTurn :=
  [.RIGHT, .SLIGHT_RIGHT, .SHARP_RIGHT, .MERGE_TO_RIGHT]

/-- The left-turn variant group of count_pair_interaction lines 423 to
428. -/
def left_variants : List LaneTurn :=
  [.LEFT, .SLIGHT_LEFT, .SHARP_LEFT, .MERGE_TO_LEFT]

/-- The inner helper _to_direction of count_pair_interaction (lines 437 to
446): through and reverse map directly; the driving-side turn variants map
to TURN and everything else to CROSS. -/
def _to_direction (right_lane_drive : Bool) (turn : LaneTurn) : Direction :=
  if turn = .THROUGH then .THRU
  else if turn = .REVERSE then .REVERSE
  else if turn ∈ (if right_lane_drive then right_variants else left_variants) then .TURN
  else .CROSS

/-- One entry of the JSON conflict classifier table consumed by
get_conflict_type.  In the source the fields are strings resolved through
the enumerations; they are modeled with the resolved enumeration values. -/
structure ConflictRule where
  this_move : Direction
  other_move : Direction
  nbr_pos : NbrPosition
  conflict : JuncConflict

/-- Embedding of get_conflict_type (junction_analysis.py lines 387 to 405):
first table entry matching the movement pair and position wins, with
NO_CONFLICT as the fallback for an incomplete table. -/
def get_conflict_type (this_move other_move : Direction) (nbr_pos : NbrPosition)
    (conflict_classifier : List ConflictRule) : JuncConflict :=
  match conflict_classifier.find?
      (fun e => e.this_move = this_move ∧ e.other_move = other_move ∧ e.nbr_pos = nbr_pos) with
  | some e => e.conflict
  | none => .NO_CONFLICT

/-- A tally increment on a conflict counter (the Counter updates at lines
453 and 471). -/
def bump (cnt : JuncConflict → ℕ) (c : JuncConflict) : JuncConflict → ℕ :=
  fun x => if x = c then cnt x + 1 else cnt x

/-- One leg at a junction node, as assembled by get_legs (lines 256 to
307): the neighbor id and coordinate, the allowed incoming movements (none
for legs seen only through outgoing edges), and the leg geometry,
abstracted to the local departure direction vector that get_dir_vector
extracts from the stored polyline via shapely projection. -/
structure Leg where
  nbr_id : ℤ
  nbr_coord : ℚ × ℚ
  in_turns : Option (Finset LaneTurn)
  dirVec : ℝ × ℝ

/-- Embedding of count_pair_interaction (junction_analysis.py lines 408 to
471): when either leg has no known incoming movements, one NO_CONFLICT
tally is recorded and nothing else happens; otherwise the position of leg2
relative to leg1 is computed once and every pair in the Cartesian product
of the movement sets contributes one tally of its looked-up conflict
type. -/
noncomputable def count_pair_interaction (leg1 leg2 : Leg)
    (conflict_counter : JuncConflict → ℕ) (conflict_classifier : List ConflictRule)
    (angle_threshold : ℝ) (right_lane_drive : Bool) : JuncConflict → ℕ :=
  match leg1.in_turns, leg2.in_turns with
  | none, _ => bump conflict_counter .NO_CONFLICT
  | some _, none => bump conflict_counter .NO_CONFLICT
  | some s1, some s2 =>
    let nbr_pos := get_position leg1.dirVec leg2.dirVec angle_threshold right_lane_drive
    (s1 ×ˢ s2).toList.foldl
      (fun cnt p =>
        bump cnt (get_conflict_type (_to_direction right_lane_drive p.1)
          (_to_direction right_lane_drive p.2) nbr_pos conflict_classifier))
      conflict_counter

/-- A coordinate point of the compliant-network graph (shapely coordinates
idealized as rational pairs). -/
abbrev Pt := ℚ × ℚ

/-- The shapely geometries reaching get_longest_network: LineStrings carry
their coordinate list; other geometry kinds (such as MultiLineStrings) are
represented by the remaining constructors. -/
inductive PyGeom where
  | lineString (coords : List Pt)
  | multiLineString (parts : List (List Pt))
  | point (p : Pt)

/-- The isinstance LineString filter of get_longest_network line 139. -/
def isLineString : PyGeom → Bool
  | .lineString _ => true
  | _ => false

/-- The coordinate lists of the LineString elements of the input, in order
(get_longest_network line 139). -/
def linesOf : List PyGeom → List (List Pt)
  | [] => []
  | .lineString cs :: gs => cs :: linesOf gs
  | _ :: gs => linesOf gs

/-- The consecutive coordinate pairs of one polyline (the add_edge loop of
get_longest_network lines 146 to 148). -/
def segsOf (coords : List Pt) : List (Pt × Pt) :=
  coords.zip coords.tail

/-- One G.add_edge step on the graph state (node list in insertion order,
undirected edge list deduplicated in either orientation), matching the
networkx Graph semantics used at line 148. -/
def addEdge (st : List Pt × List (Pt × Pt)) (uv : Pt × Pt) : List Pt × List (Pt × Pt) :=
  let nodes1 := if uv.1 ∈ st.1 then st.1 else st.1 ++ [uv.1]
  let nodes2 := if uv.2 ∈ nodes1 then nodes1 else nodes1 ++ [uv.2]
  let dup := st.2.any (fun e => (e.1 = uv.1 ∧ e.2 = uv.2) ∨ (e.1 = uv.2 ∧ e.2 = uv.1))
  (nodes2, if dup then st.2 else st.2 ++ [uv])

/-- The graph built from the compliant polylines (get_longest_network lines
144 to 148). -/
def buildGraph (lines : List (List Pt)) : List Pt × List (Pt × Pt) :=
  lines.foldl (fun st line => (segsOf line).foldl addEdge st) ([], [])

/-- Neighbors of a point in the undirected edge list. -/
def nbrsOf (edges : List (Pt × Pt)) (p : Pt) : List Pt :=
  edges.filterMap
    (fun e =>
      if e.1 = p then some e.2
      else if e.2 = p then some e.1
      else none)

/-- Fueled breadth-first traversal collecting the connected component of
the initial frontier. -/
def bfs (edges : List (Pt × Pt)) : ℕ → List Pt → List Pt → List Pt
  | 0, visited, _ => visited
  | _ + 1, visited, [] => visited
  | n + 1, visited, f :: fs =>
    if f ∈ visited then bfs edges n visited fs
    else bfs edges n (visited ++ [f]) (fs ++ nbrsOf edges f)

/-- The connected components of the graph in the order networkx yields
them: one component per first-unseen node in node insertion order
(nx.connected_components at line 152). -/
def componentsOf (nodes : List Pt) (edges : List (Pt × Pt)) : List (List Pt) :=
  (nodes.foldl
    (fun acc p =>
      if p ∈ acc.2 then acc
      else
        let comp := bfs edges (2 * edges.length + nodes.length + 2) [] [p]
        (acc.1 ++ [comp], acc.2 ++ comp))
    ([], [])).1

/-- The edges of the subgraph induced by a component (G.subgraph(c) at line
152): the stored edges with both endpoints in the component. -/
def compEdges (edges : List (Pt × Pt)) (comp : List Pt) : List (Pt × Pt) :=
  edges.filter (fun e => e.1 ∈ comp ∧ e.2 ∈ comp)

/-- Euclidean length of one segment edge (LineString([u, v]).length at line
153). -/
noncomputable def segLen (e : Pt × Pt) : ℝ :=
  Real.sqrt (((e.2.1 : ℝ) - (e.1.1 : ℝ)) ^ 2 + ((e.2.2 : ℝ) - (e.1.2 : ℝ)) ^ 2)

/-- Total Euclidean edge length of a component subgraph, the selection key
of get_longest_network line 153. -/
noncomputable def totalLen (edges : List (Pt × Pt)) (comp : List Pt) : ℝ :=
  ((compEdges edges comp).map segLen).sum

/-- Python max() with a key over a nonempty sequence given as head and
tail: later elements replace the current best only when strictly greater,
so the first maximal element wins ties. -/
noncomputable def maxBy {α : Type} (key : α → ℝ) (h : α) (t : List α) : α :=
  t.foldl (fun best x => if key x > key best then x else best) h

/-- Embedding of get_longest_network from the filtered line list onward
(network_task.py lines 138 to 166): build the segment graph, pick the
connected component of maximal total length with max(), and return its
segment edges (the MultiLineString reconstruction of lines 157 to 164),
or none when there are no lines or the winning component has no segments.
When the line list is nonempty but contributes no graph nodes the source
raises ValueError inside max(); that unreachable-in-practice case yields
none here. -/
noncomputable def get_longest_network_lines (lines : List (List Pt)) : Option (List (Pt × Pt)) :=
  if lines = [] then none
  else
    match componentsOf (buildGraph lines).1 (buildGraph lines).2 with
    | [] => none
    | c0 :: rest =>
      if compEdges (buildGraph lines).2 (maxBy (totalLen (buildGraph lines).2) c0 rest) = []
      then none
      else some (compEdges (buildGraph lines).2 (maxBy (totalLen (buildGraph lines).2) c0 rest))

/-- Embedding of get_longest_network (network_task.py lines 138 to 166) on
the raw geometry list: only LineString inputs are kept (line 139), then the
component extraction above runs. -/
noncomputable def get_longest_network (compliant_geom : List PyGeom) : Option (List (Pt × Pt)) :=
  get_longest_network_lines (linesOf compliant_geom)

/-- The width string of the spec example for feet and inches, sixteen feet
three inches, written with explicit character codes for the apostrophe (39)
and the double quote (34). -/
def str163 : String :=
  String.mk (['1', '6', Char.ofNat 39, '3', Char.ofNat 34])

/-- A concrete ODD imposing a speed-limit ceiling of 50. -/
def oddSpeed50 : OddSpec :=
  { speed_limit := some (VNum 50) }

/-- A concrete edge metadata record with every attribute absent. -/
def emptyMeta : EdgeMeta := {}

/-- A concrete edge record carrying a turn-lane tag with two segments and
no directional lane-count tag. -/
def laneDataEx : EdgeData :=
  { turn_lanes_forward := some (VStr "left|through") }

/-- A concrete leg with unknown incoming movements. -/
noncomputable def legEx1 : Leg :=
  { nbr_id := 1, nbr_coord := (0, 0), in_turns := none, dirVec := (1, 0) }

/-- A concrete leg with a single through movement. -/
noncomputable def legEx2 : Leg :=
  { nbr_id := 2, nbr_coord := (1, 1), in_turns := some ({LaneTurn.THROUGH} : Finset LaneTurn),
    dirVec := (0, 1) }

/-- The all-zero conflict counter. -/
def zeroCounter : JuncConflict → ℕ := fun _ => 0

/-- The two disjoint compliant polylines of the spec example, of total
Euclidean lengths 10 and 25. -/
def netExample : List PyGeom :=
  [PyGeom.lineString [(0, 0), (10, 0)], PyGeom.lineString [(20, 0), (45, 0)]]

/-- The node list of the graph built from a geometry list. -/
def netNodes (geoms : List PyGeom) : List Pt :=
  (buildGraph (linesOf geoms)).1

/-- The edge list of the graph built from a geometry list. -/
def netEdges (geoms : List PyGeom) : List (Pt × Pt) :=
  (buildGraph (linesOf geoms)).2

/-- The component max() selects among a nonempty component list for a
geometry list. -/
noncomputable def netChosen (geoms : List PyGeom) (c0 : List Pt) (rest : List (List Pt)) :
    List Pt :=
  maxBy (totalLen (netEdges geoms)) c0 rest

/-- The first connected component of the example graph. -/
def netComp1 : List Pt := [(0, 0), (10, 0)]

/-- The second connected component of the example graph. -/
def netComp2 : List Pt := [(20, 0), (45, 0)]

/- ------------------------- Theorems ------------------------- -/

/-- C1: the spec and the docstring of classify_node_other say a degree-3
node with maximum interior angle above the threshold is a T_JUNCTION; the
code comparison at junction_analysis.py line 134 goes the other way.  At
the claimed input, interior angles 100, 130, 130 with threshold 110, the
code returns Y_JUNCTION where the claim (and the docstring of
classify_node_other itself) requires T_JUNCTION. -/
theorem C1_eval : classify_deg3 [100, 130, 130] 110 = JunctionType.Y_JUNCTION := by
  have h : pyMax [(100 : ℝ), 130, 130] = 130 := by
    simp only [pyMax, List.foldl]
    rw [max_eq_right (by norm_num : (100 : ℝ) ≤ 130), max_self]
  simp only [classify_deg3, h]
  rw [if_neg (by norm_num : ¬ (130 : ℝ) ≤ 110)]

/-- C4 counterexample: the claimed value for the feet-and-inches input,
4.9784, is off by exactly one inch; _convert_to_meters returns
16 times 0.3048 plus 3 times 0.0254, which is 4.953, and this differs from
4.9784 by more than the claimed 0.001 tolerance. -/
theorem C4_counterexample :
    _convert_to_meters str163 = Except.ok (4953 / 1000)
    ∧ ¬ |(4953 / 1000 : ℚ) - 49784 / 10000| ≤ 1 / 1000 := by
  constructor
  · have h : _convert_to_meters str163 = Except.ok (mkRat 4953 1000) := by decide
    rw [h]
    norm_num [Rat.mkRat_eq_div]
  · rw [abs_of_neg (by norm_num : (4953 / 1000 : ℚ) - 49784 / 10000 < 0)]
    norm_num

/-- C4 amended: the width parser returns exactly 12 for the meters input,
12.192 for the feet input, 4.953 for the feet-and-inches input, 8046.72 for
the miles input and 7 for the bare number. -/
theorem C4_thm :
    _convert_to_meters "12m" = Except.ok 12
    ∧ _convert_to_meters "40ft" = Except.ok (12192 / 1000)
    ∧ _convert_to_meters str163 = Except.ok (4953 / 1000)
    ∧ _convert_to_meters "5mi" = Except.ok (804672 / 100)
    ∧ _convert_to_meters "7" = Except.ok 7 := by
  refine ⟨?_, ?_, ?_, ?_, ?_⟩
  · have h : _convert_to_meters "12m" = Except.ok (mkRat 12 1) := by decide
    rw [h]
    norm_num [Rat.mkRat_eq_div]
  · have h : _convert_to_meters "40ft" = Except.ok (mkRat 1524 125) := by decide
    rw [h]
    norm_num [Rat.mkRat_eq_div]
  · have h : _convert_to_meters str163 = Except.ok (mkRat 4953 1000) := by decide
    rw [h]
    norm_num [Rat.mkRat_eq_div]
  · have h : _convert_to_meters "5mi" = Except.ok (mkRat 201168 25) := by decide
    rw [h]
    norm_num [Rat.mkRat_eq_div]
  · have h : _convert_to_meters "7" = Except.ok (mkRat 7 1) := by decide
    rw [h]
    norm_num [Rat.mkRat_eq_div]

/-- C5: width parsing is not total.  When the number-and-unit pattern of
_convert_to_meters matches but the captured numeric text has two decimal
points, the unguarded float conversion at junction_analysis.py line 498
raises ValueError, which propagates out of the function instead of the
documented 0.0 fallback. -/
theorem C5_eval : _convert_to_meters "1.2.3m" = Except.error "ValueError" := by decide

/-- Helper: a guard of the shape if-then-false collapses when the
remainder is already false. -/
theorem if_false_false (c : Bool) {x : Bool} (h : x = false) :
    (if c then false else x) = false := by
  cases c <;> simp [h]

/-- C2 counterexample: an edge whose metadata lacks the speed-limit
attribute is rejected by check_single_edge_odd_compliance under an ODD
that imposes a speed ceiling of 50, because the missing value falls back to
999, which exceeds the ceiling.  The claim says absent data is never
rejected by this check. -/
theorem C2_counterexample :
    check_single_edge_odd_compliance oddSpeed50 emptyMeta = false := by decide

/-- C2 amended: the fallbacks 999 (speed limit) and 0 (lane width) are
restrictive, not permissive.  Whenever the ODD imposes a speed ceiling
below 999 and the edge metadata has no speed-limit attribute, the edge is
rejected; whenever the ODD imposes a positive lane-width floor and the edge
metadata has no lane-width attribute, the edge is rejected. -/
theorem C2_thm : ∀ (odd : OddSpec) (md : EdgeMeta),
    (∀ q : ℚ, odd.speed_limit = some (VNum q) → q < 999 → md.speed_limit = none →
      check_single_edge_odd_compliance odd md = false)
    ∧ (∀ w : ℚ, odd.lane_width = some (VNum w) → 0 < w → md.lane_width = none →
      check_single_edge_odd_compliance odd md = false) := by
  intro odd md
  constructor
  · intro q h1 h2 h3
    unfold check_single_edge_odd_compliance
    rw [h1, h3]
    apply if_false_false
    apply if_false_false
    apply if_false_false
    apply if_false_false
    have hrej : speedRejects (get_min_numeric (some ((none : Option Value).getD (VNum 999))))
        (get_min_numeric (some (VNum q))) = true := by
      show speedRejects (some 999) (some q) = true
      simp [speedRejects, h2]
    rw [hrej]
    simp
  · intro w h1 h2 h3
    unfold check_single_edge_odd_compliance
    rw [h1, h3]
    apply if_false_false
    apply if_false_false
    apply if_false_false
    apply if_false_false
    apply if_false_false
    have hrej : widthRejects (get_min_numeric (some ((none : Option Value).getD (VNum 0))))
        (get_min_numeric (some (VNum w))) = true := by
      show widthRejects (some 0) (some w) = true
      simp [widthRejects, h2]
    rw [hrej]
    simp

/-- C2 witness: the amended statement instantiated at the concrete ODD with
a speed ceiling of 50 and the empty edge metadata. -/
theorem C2_witness :
    check_single_edge_odd_compliance oddSpeed50 emptyMeta = false :=
  (C2_thm oddSpeed50 emptyMeta).1 50 rfl (by norm_num) rfl

/-- C3 counterexample: on an edge whose data carries a two-segment
turn-lane tag but no directional lane-count tag, the parser returns lane
count 1 flagged as an estimate, not the segment count 2 unflagged as the
claim requires; the turn-lane tag is consulted for the count only when the
lane-count tag is present as a list. -/
theorem C3_counterexample :
    (_parse_lane_data laneDataEx).2 = (1, true)
    ∧ ¬ (_parse_lane_data laneDataEx).2 = (2, false) := by decide

/-- C3 amended: the lane count resolution of _parse_lane_data is as
follows.  With no directional lane-count tag the count is 1 and an
estimate, even when a turn-lane tag is present.  When the lane-count tag is
a list and the turn-lane tag is truthy, the count is the Python length of
the raw turn-lane tag (its segment count when it is a list, its character
count when it is a string) and not an estimate.  When the lane-count tag is
a list and no truthy turn-lane tag exists, the count is the first list
element parsed as an integer (1 on failure or empty list) and an estimate.
When the lane-count tag is a single value, that value parsed as an integer
is used and is not an estimate; if parsing fails the count is 1 and an
estimate — in both single-value cases the turn-lane tag is ignored. -/
theorem C3_thm : ∀ d : EdgeData,
    (lanesValOf d = none → (_parse_lane_data d).2 = (1, true))
    ∧ (∀ l, lanesValOf d = some (VList l) → truthy (tagRawOf d) = true →
      (_parse_lane_data d).2 = ((pyLen (tagRawOf d) : ℤ), false))
    ∧ (∀ l, lanesValOf d = some (VList l) → truthy (tagRawOf d) = false →
      (_parse_lane_data d).2 =
        ((match l with | [] => (1 : ℤ) | x :: _ => (pyInt x).getD 1), true))
    ∧ (∀ v, lanesValOf d = some v → (∀ l, v ≠ VList l) → ∀ n, pyInt v = some n →
      (_parse_lane_data d).2 = (n, false))
    ∧ (∀ v, lanesValOf d = some v → (∀ l, v ≠ VList l) → pyInt v = none →
      (_parse_lane_data d).2 = (1, true)) := by
  intro d
  refine ⟨?_, ?_, ?_, ?_, ?_⟩
  · intro h
    simp only [_parse_lane_data]
    rw [h]
  · intro l h ht
    simp only [_parse_lane_data]
    rw [h, ht]
    simp
  · intro l h ht
    simp only [_parse_lane_data]
    rw [h, ht]
    simp only [Bool.false_eq_true, if_false]
    cases l with
    | nil => rfl
    | cons x xs =>
      cases hpi : pyInt x with
      | none => simp [hpi]
      | some n => simp [hpi]
  · intro v h hnl n hpi
    simp only [_parse_lane_data]
    rw [h]
    cases v with
    | VList l => exact absurd rfl (hnl l)
    | VStr s => simp [hpi]
    | VNum q => simp [hpi]
    | VBool b => simp [hpi]
  · intro v h hnl hpi
    simp only [_parse_lane_data]
    rw [h]
    cases v with
    | VList l => exact absurd rfl (hnl l)
    | VStr s => simp [hpi]
    | VNum q => simp [hpi]
    | VBool b => simp [hpi]

/-- C3 witness: the amended statement instantiated at the concrete edge
record with a turn-lane tag and no lane-count tag. -/
theorem C3_witness : (_parse_lane_data laneDataEx).2 = (1, true) :=
  (C3_thm laneDataEx).1 rfl

/-- C6: the edge-level compliance check treats a scalar boolean ODD policy
and the single-element list holding the same boolean identically, both for
the oneway policy and for the is_major_road policy, because the check
unwraps a nonempty list policy to its first element before using it. -/
theorem C6_thm : ∀ (odd : OddSpec) (md : EdgeMeta) (b : Bool),
    (check_single_edge_odd_compliance { odd with oneway := some (VBool b) } md =
      check_single_edge_odd_compliance { odd with oneway := some (VList [VBool b]) } md)
    ∧ (check_single_edge_odd_compliance { odd with is_major_road := some (VBool b) } md =
      check_single_edge_odd_compliance { odd with is_major_road := some (VList [VBool b]) } md) :=
  fun _ _ _ => ⟨rfl, rfl⟩

/-- C9: when either local departure direction vector is zero-length the
neighbor-position classification returns FAR through the magnitude guard,
before any angle computation, and (being a total function) raises
nothing. -/
theorem C9_thm : ∀ (v1 v2 : ℝ × ℝ) (angle_threshold : ℝ) (right_lane_drive : Bool),
    v1 = (0, 0) ∨ v2 = (0, 0) →
    get_position v1 v2 angle_threshold right_lane_drive = NbrPosition.FAR := by
  intro v1 v2 th rhd h
  rcases h with h | h <;> subst h <;> simp [get_position, Real.sqrt_eq_zero']

/-- C9 witness: the guard instantiated with a zero first vector. -/
theorem C9_witness : get_position (0, 0) (1, 0) 45 true = NbrPosition.FAR :=
  C9_thm (0, 0) (1, 0) 45 true (Or.inl rfl)

/-- Helper: folding tally increments over a list adds, at each conflict
type, the number of list elements mapped to that type. -/
theorem foldl_bump_count {β : Type} (f : β → JuncConflict) (l : List β)
    (cnt : JuncConflict → ℕ) (c : JuncConflict) :
    (l.foldl (fun m p => bump m (f p)) cnt) c =
      cnt c + (l.filter (fun p => decide (f p = c))).length := by
  induction l generalizing cnt with
  | nil => simp
  | cons x xs ih =>
    simp only [List.foldl_cons, List.filter_cons]
    rw [ih]
    by_cases hx : f x = c
    · rw [if_pos (by simp [hx])]
      rw [List.length_cons]
      have hb : bump cnt (f x) c = cnt c + 1 := by
        unfold bump
        rw [if_pos hx.symm]
      rw [hb]
      omega
    · rw [if_neg (by simp [hx])]
      have hb : bump cnt (f x) c = cnt c := by
        unfold bump
        rw [if_neg (fun hc => hx hc.symm)]
      rw [hb]

/-- C7: for a pair of legs, when either leg has no known incoming
movements the counter gains exactly one NO_CONFLICT tally and nothing else
(independently of any geometry); otherwise the pair position is computed
once and, for every element of the Cartesian product of the two movement
sets, exactly one tally of the looked-up conflict type is added. -/
theorem C7_thm : ∀ (leg1 leg2 : Leg) (cnt : JuncConflict → ℕ)
    (cls : List ConflictRule) (th : ℝ) (rhd : Bool),
    ((leg1.in_turns = none ∨ leg2.in_turns = none) →
      count_pair_interaction leg1 leg2 cnt cls th rhd = bump cnt .NO_CONFLICT)
    ∧ (∀ s1 s2, leg1.in_turns = some s1 → leg2.in_turns = some s2 →
      ∀ c, count_pair_interaction leg1 leg2 cnt cls th rhd c =
        cnt c + ((s1 ×ˢ s2).toList.filter
          (fun p => decide (get_conflict_type (_to_direction rhd p.1) (_to_direction rhd p.2)
            (get_position leg1.dirVec leg2.dirVec th rhd) cls = c))).length) := by
  intro leg1 leg2 cnt cls th rhd
  constructor
  · intro h
    rcases h with h | h
    · unfold count_pair_interaction
      rw [h]
    · cases h1 : leg1.in_turns with
      | none =>
        unfold count_pair_interaction
        rw [h1]
      | some s1 =>
        unfold count_pair_interaction
        rw [h1, h]
  · intro s1 s2 h1 h2 c
    unfold count_pair_interaction
    rw [h1, h2]
    exact foldl_bump_count _ _ cnt c

/-- C7 witness: the null-movement branch instantiated at a concrete leg
pair. -/
theorem C7_witness :
    count_pair_interaction legEx1 legEx2 zeroCounter [] 45 true =
      bump zeroCounter .NO_CONFLICT :=
  (C7_thm legEx1 legEx2 zeroCounter [] 45 true).1 (Or.inl rfl)

/-- Helper: the Python max() fold returns an element whose key is maximal
in the sequence, and it is the first such element: everything strictly
before it in the sequence has a strictly smaller key. -/
theorem maxBy_spec {α : Type} (key : α → ℝ) (h : α) (t : List α) :
    (∀ x ∈ h :: t, key x ≤ key (maxBy key h t))
    ∧ ∃ l1 l2, h :: t = l1 ++ maxBy key h t :: l2
        ∧ ∀ x ∈ l1, key x < key (maxBy key h t) := by
  induction t generalizing h with
  | nil =>
    constructor
    · intro x hx
      rw [List.mem_singleton] at hx
      subst hx
      exact le_refl _
    · exact ⟨[], [], rfl, by simp⟩
  | cons a t ih =>
    have hstep : maxBy key h (a :: t) = maxBy key (if key a > key h then a else h) t := rfl
    by_cases hah : key a > key h
    · rw [hstep, if_pos hah]
      obtain ⟨hle, l1, l2, heq, hlt⟩ := ih a
      constructor
      · intro x hx
        rcases List.mem_cons.mp hx with hx | hx
        · subst hx
          exact le_trans (le_of_lt hah) (hle a (List.mem_cons_self a t))
        · exact hle x hx
      · refine ⟨h :: l1, l2, ?_, ?_⟩
        · rw [List.cons_append, ← heq]
        · intro x hx
          rcases List.mem_cons.mp hx with hx | hx
          · subst hx
            exact lt_of_lt_of_le hah (hle a (List.mem_cons_self a t))
          · exact hlt x hx
    · rw [hstep, if_neg hah]
      push_neg at hah
      obtain ⟨hle, l1, l2, heq, hlt⟩ := ih h
      constructor
      · intro x hx
        rcases List.mem_cons.mp hx with hx | hx
        · rw [hx]
          exact hle h (List.mem_cons_self h t)
        · rcases List.mem_cons.mp hx with hx2 | hx2
          · subst hx2
            exact le_trans hah (hle h (List.mem_cons_self h t))
          · exact hle x (List.mem_cons_of_mem h hx2)
      · cases l1 with
        | nil =>
          rw [List.nil_append] at heq
          have hm : maxBy key h t = h := (List.cons.inj heq).1.symm
          refine ⟨[], a :: t, ?_, by simp⟩
          rw [hm, List.nil_append]
        | cons y l1p =>
          rw [List.cons_append] at heq
          have hy : h = y := (List.cons.inj heq).1
          have ht2 : t = l1p ++ maxBy key h t :: l2 := (List.cons.inj heq).2
          refine ⟨h :: a :: l1p, l2, ?_, ?_⟩
          · rw [List.cons_append, List.cons_append, ← ht2]
          · have hhm : key h < key (maxBy key h t) := by
              have hyl := hlt y (List.mem_cons_self y l1p)
              rw [← hy] at hyl
              exact hyl
            intro x hx
            rcases List.mem_cons.mp hx with hx | hx
            · rw [hx]
              exact hhm
            · rcases List.mem_cons.mp hx with hx2 | hx2
              · rw [hx2]
                exact lt_of_le_of_lt hah hhm
              · exact hlt x (List.mem_cons_of_mem y hx2)

/-- C8: the longest-network extraction returns none on an empty input; on
the two disjoint example polylines of lengths 10 and 25 it returns exactly
the segment of the length-25 component; and in general, whenever the
component list is nonempty, the output is the induced segment set of the
max() component, whose total length bounds every component and strictly
exceeds every component listed before it (first maximal wins ties). -/
theorem C8_thm :
    get_longest_network [] = none
    ∧ get_longest_network netExample = some [((20, 0), (45, 0))]
    ∧ (∀ (geoms : List PyGeom) (c0 : List Pt) (rest : List (List Pt)),
      linesOf geoms ≠ [] →
      componentsOf (netNodes geoms) (netEdges geoms) = c0 :: rest →
      (get_longest_network geoms =
        (if compEdges (netEdges geoms) (netChosen geoms c0 rest) = [] then none
         else some (compEdges (netEdges geoms) (netChosen geoms c0 rest)))
      ∧ (∀ c ∈ c0 :: rest,
          totalLen (netEdges geoms) c ≤ totalLen (netEdges geoms) (netChosen geoms c0 rest))
      ∧ ∃ l1 l2, c0 :: rest = l1 ++ netChosen geoms c0 rest :: l2
          ∧ ∀ c ∈ l1,
            totalLen (netEdges geoms) c < totalLen (netEdges geoms) (netChosen geoms c0 rest))) := by
  refine ⟨rfl, ?_, ?_⟩
  · have hcomp : componentsOf (buildGraph (linesOf netExample)).1
        (buildGraph (linesOf netExample)).2 = [netComp1, netComp2] := by decide
    have hc1 : compEdges (buildGraph (linesOf netExample)).2 netComp1 =
        [((0, 0), (10, 0))] := by decide
    have hc2 : compEdges (buildGraph (linesOf netExample)).2 netComp2 =
        [((20, 0), (45, 0))] := by decide
    have h1 : totalLen (buildGraph (linesOf netExample)).2 netComp1 = 10 := by
      unfold totalLen
      rw [hc1, List.map_cons, List.map_nil, List.sum_cons, List.sum_nil]
      unfold segLen
      push_cast
      rw [show ((10 : ℝ) - 0) ^ 2 + ((0 : ℝ) - 0) ^ 2 = 10 ^ 2 by norm_num, add_zero]
      exact Real.sqrt_sq (by norm_num)
    have h2 : totalLen (buildGraph (linesOf netExample)).2 netComp2 = 25 := by
      unfold totalLen
      rw [hc2, List.map_cons, List.map_nil, List.sum_cons, List.sum_nil]
      unfold segLen
      push_cast
      rw [show ((45 : ℝ) - 20) ^ 2 + ((0 : ℝ) - 0) ^ 2 = 25 ^ 2 by norm_num, add_zero]
      exact Real.sqrt_sq (by norm_num)
    have hM : maxBy (totalLen (buildGraph (linesOf netExample)).2) netComp1 [netComp2] =
        netComp2 := by
      show (if totalLen (buildGraph (linesOf netExample)).2 netComp2 >
          totalLen (buildGraph (linesOf netExample)).2 netComp1
        then netComp2 else netComp1) = netComp2
      rw [h1, h2]
      rw [if_pos (by norm_num : (25 : ℝ) > 10)]
    show get_longest_network_lines (linesOf netExample) = some [((20, 0), (45, 0))]
    unfold get_longest_network_lines
    rw [if_neg (by decide : ¬ linesOf netExample = [])]
    rw [hcomp]
    show (if compEdges (buildGraph (linesOf netExample)).2
        (maxBy (totalLen (buildGraph (linesOf netExample)).2) netComp1 [netComp2]) = []
      then none
      else some (compEdges (buildGraph (linesOf netExample)).2
        (maxBy (totalLen (buildGraph (linesOf netExample)).2) netComp1 [netComp2]))) =
      some [((20, 0), (45, 0))]
    rw [hM, hc2]
    rw [if_neg (by decide : ¬ ([((20, 0), (45, 0))] : List (Pt × Pt)) = [])]
  · intro geoms c0 rest hne hcomp
    simp only [netNodes, netEdges] at hcomp
    refine ⟨?_, ?_, ?_⟩
    · show get_longest_network_lines (linesOf geoms) = _
      unfold get_longest_network_lines
      rw [if_neg hne, hcomp]
      rfl
    · intro c hc
      exact (maxBy_spec (totalLen (buildGraph (linesOf geoms)).2) c0 rest).1 c hc
    · exact (maxBy_spec (totalLen (buildGraph (linesOf geoms)).2) c0 rest).2

/-- C8 witness: the general component-selection conjunct instantiated at
the concrete two-component example. -/
theorem C8_witness :
    totalLen (netEdges netExample) netComp1 ≤
      totalLen (netEdges netExample) (netChosen netExample netComp1 [netComp2]) :=
  ((C8_thm.2.2 netExample netComp1 [netComp2] (by decide) (by decide)).2.1) netComp1
    (List.mem_cons_self netComp1 [netComp2])

/-- Helper: dropping the non-LineString geometries first does not change
the extracted line list. -/
theorem linesOf_filter (geoms : List PyGeom) :
    linesOf (geoms.filter isLineString) = linesOf geoms := by
  induction geoms with
  | nil => rfl
  | cons g gs ih => cases g <;> simp [linesOf, isLineString, List.filter_cons, ih]


/-- C10: the extraction depends only on the LineString elements of its
input (non-LineString geometries are dropped before graph construction),
and when no element is a LineString the result is none; in particular a
list holding only a MultiLineString and a Point yields none. -/
theorem C10_thm :
    (∀ geoms : List PyGeom,
      get_longest_network geoms = get_longest_network (geoms.filter isLineString)
      ∧ (linesOf geoms = [] → get_longest_network geoms = none))
    ∧ get_longest_network
        [PyGeom.multiLineString [[(0, 0), (1, 0)], [(1, 0), (2, 0)]], PyGeom.point (3, 3)] =
      none := by
  constructor
  · intro geoms
    constructor
    · show get_longest_network_lines (linesOf geoms) =
        get_longest_network_lines (linesOf (geoms.filter isLineString))
      rw [linesOf_filter]
    · intro h
      show get_longest_network_lines (linesOf geoms) = none
      rw [h]
      rfl
  · rfl

/-- C10 witness: a single non-LineString geometry yields none. -/
theorem C10_witness : get_longest_network [PyGeom.point (5, 5)] = none :=
  (C10_thm.1 [PyGeom.point (5, 5)]).2 rfl

end TierIV
